import Mathlib

/-!
Verification development for the GenAI roadmap pipeline
(`roadmap_agent.py`).  Python strings are modelled as `List Char`
(named `Str`), Python's JSON values as the inductive `Json`, the
external model client (`GeminiAPI.generate`) as a function
`gen : Str → Str` from prompt to returned text, and the standard
library's `json.loads` / `json.dumps(·, indent=2)` as abstract
parameters `loads : Str → Option Json` (with `none` modelling a parse
exception) and `dumps : Json → Str`.  Python code that can raise an
uncaught exception is modelled in `Except Unit`.
-/

/-- Python strings modelled as lists of characters. -/
abbrev Str := List Char

/-- Turn a Lean string literal into the `Str` model. -/
def sL (s : String) : Str := s.data

/-- The whitespace test used by Python's `str.strip()` (ASCII part). -/
def pyIsSpace (c : Char) : Bool :=
  c = ' ' || c = '\t' || c = '\n' || c = '\r' || c = '\x0b' || c = '\x0c'

/-- Python's `str.strip()`: drop whitespace from both ends. -/
def pyStrip (s : Str) : Str :=
  ((s.dropWhile pyIsSpace).reverse.dropWhile pyIsSpace).reverse

/-- The backtick character (written via its code point). -/
def tick : Char := Char.ofNat 96

/-- The three-backtick code-fence marker. -/
def fenceMarker : Str := [tick, tick, tick]

/-- Models the regex substitution that removes the leading
fence-and-tag line (three backticks, a maximal run of ASCII letters,
one optional newline) from a string that starts with the fence marker. -/
def stripFenceHead (s : Str) : Str :=
  match (s.drop 3).dropWhile Char.isAlpha with
  | [] => []
  | c :: t => if c = '\n' then t else c :: t

/-- `clean_json_output` from `roadmap_agent.py`: strip the input; if it
starts with a code fence, remove the fence-and-tag head, and if the
remainder ends with a fence remove the final three characters; strip
again. -/
def clean_json_output (output : Str) : Str :=
  pyStrip
    (if fenceMarker.isPrefixOf (pyStrip output) then
      (if fenceMarker.isSuffixOf (stripFenceHead (pyStrip output)) then
        (stripFenceHead (pyStrip output)).take
          ((stripFenceHead (pyStrip output)).length - 3)
      else stripFenceHead (pyStrip output))
    else pyStrip output)

/-- The head surviving `dropWhile p` fails `p`. -/
theorem dropWhile_head_false (p : Char → Bool) (s : Str) (a : Char) (t : Str)
    (h : s.dropWhile p = a :: t) : p a = false := by
  have hh := List.head?_dropWhile_not p s
  rw [h] at hh
  simpa using hh

/-- `pyStrip` is the identity on a singleton non-space character. -/
theorem pyStrip_single (a : Char) (ha : pyIsSpace a = false) :
    pyStrip [a] = [a] := by
  simp [pyStrip, List.dropWhile_cons, ha]

/-- `pyStrip` is the identity when both end characters are non-space. -/
theorem pyStrip_noop_ends (a b : Char) (z : Str)
    (ha : pyIsSpace a = false) (hb : pyIsSpace b = false) :
    pyStrip (a :: (z ++ [b])) = a :: (z ++ [b]) := by
  simp [pyStrip, List.dropWhile_cons, List.dropWhile_append, ha, hb]

/-- Dropping a trailing whitespace character before stripping is harmless. -/
theorem pyStrip_append_ws (s : Str) (c : Char) (hc : pyIsSpace c = true) :
    pyStrip (s ++ [c]) = pyStrip s := by
  unfold pyStrip
  rw [List.dropWhile_append]
  cases hd : (s.dropWhile pyIsSpace).isEmpty with
  | true =>
    simp only [List.isEmpty_iff] at hd
    simp [hd, List.dropWhile_cons, hc]
  | false =>
    simp [hd, List.dropWhile_cons, hc]

/-- Python's `strip` is idempotent. -/
theorem pyStrip_idem (s : Str) : pyStrip (pyStrip s) = pyStrip s := by
  cases hd : s.dropWhile pyIsSpace with
  | nil => simp [pyStrip, hd]
  | cons a t =>
    have ha := dropWhile_head_false pyIsSpace s a t hd
    cases hd2 : t.reverse.dropWhile pyIsSpace with
    | nil =>
      have hs : pyStrip s = [a] := by
        simp [pyStrip, hd, List.dropWhile_append, hd2, List.dropWhile_cons, ha]
      rw [hs, pyStrip_single a ha]
    | cons b u =>
      have hb := dropWhile_head_false pyIsSpace t.reverse b u hd2
      have hs : pyStrip s = a :: (u.reverse ++ [b]) := by
        simp [pyStrip, hd, List.dropWhile_append, hd2, List.dropWhile_cons, ha, hb]
      rw [hs, pyStrip_noop_ends a b u.reverse ha hb]

/-- Dropping an all-alphabetic tag stops exactly at the newline. -/
theorem dropWhile_alpha_tag (tag r : Str) (h : tag.all Char.isAlpha = true) :
    (tag ++ '\n' :: r).dropWhile Char.isAlpha = '\n' :: r := by
  have hnl : ('\n').isAlpha = false := by decide
  induction tag with
  | nil => simp [List.dropWhile_cons, hnl]
  | cons c cs ih =>
    simp only [List.all_cons, Bool.and_eq_true] at h
    simp [List.dropWhile_cons, h.1, ih h.2]

/-- Normalizing a properly fenced block (optional alphabetic tag, inner
content on its own lines) yields exactly the trimmed inner content. -/
theorem clean_json_output_fenced (tag inner : Str)
    (htag : tag.all Char.isAlpha = true) :
    clean_json_output (fenceMarker ++ tag ++ '\n' :: (inner ++ '\n' :: fenceMarker))
      = pyStrip inner := by
  have htick : pyIsSpace tick = false := by decide
  have hshape : fenceMarker ++ tag ++ '\n' :: (inner ++ '\n' :: fenceMarker)
      = tick :: ((tick :: tick :: (tag ++ '\n' :: inner ++ ['\n', tick, tick])) ++ [tick]) := by
    simp [fenceMarker]
  have h1 : pyStrip (fenceMarker ++ tag ++ '\n' :: (inner ++ '\n' :: fenceMarker))
      = fenceMarker ++ tag ++ '\n' :: (inner ++ '\n' :: fenceMarker) := by
    rw [hshape]
    exact pyStrip_noop_ends tick tick _ htick htick
  have h2 : fenceMarker.isPrefixOf
      (fenceMarker ++ tag ++ '\n' :: (inner ++ '\n' :: fenceMarker)) = true := by
    simp [List.isPrefixOf_iff_prefix, List.append_assoc]
  have h3 : stripFenceHead (fenceMarker ++ tag ++ '\n' :: (inner ++ '\n' :: fenceMarker))
      = inner ++ '\n' :: fenceMarker := by
    unfold stripFenceHead
    have hdrop : (fenceMarker ++ tag ++ '\n' :: (inner ++ '\n' :: fenceMarker)).drop 3
        = tag ++ '\n' :: (inner ++ '\n' :: fenceMarker) := by
      simp [fenceMarker]
    rw [hdrop, dropWhile_alpha_tag tag _ htag]
    simp
  have hsplit : inner ++ '\n' :: fenceMarker = (inner ++ ['\n']) ++ fenceMarker := by
    simp
  have h4 : fenceMarker.isSuffixOf (inner ++ '\n' :: fenceMarker) = true := by
    simp only [List.isSuffixOf_iff_suffix]
    exact ⟨inner ++ ['\n'], by simp⟩
  have h5 : (inner ++ '\n' :: fenceMarker).take
      ((inner ++ '\n' :: fenceMarker).length - 3) = inner ++ ['\n'] := by
    rw [hsplit]
    have hl : ((inner ++ ['\n']) ++ fenceMarker).length - 3 = (inner ++ ['\n']).length := by
      simp [fenceMarker]
    rw [hl]
    exact List.take_left _ _
  unfold clean_json_output
  rw [h1, h2, if_pos rfl, h3, h4, if_pos rfl, h5]
  exact pyStrip_append_ws inner '\n' (by decide)

/-- If the trimmed input does not begin with a code fence, normalization
just trims the input. -/
theorem clean_json_output_unfenced (s : Str)
    (h : fenceMarker.isPrefixOf (pyStrip s) = false) :
    clean_json_output s = pyStrip s := by
  simp [clean_json_output, h, pyStrip_idem]

/-- Python values produced by `json.loads` (objects as association
lists in document order; numbers restricted to integers, which is all
the pipeline's prompts request). -/
inductive Json where
  | null
  | bool (b : Bool)
  | num (n : Int)
  | str (s : Str)
  | arr (elems : List Json)
  | obj (fields : List (Str × Json))

/-- Dictionary lookup (`dict` keys are unique after `json.loads`). -/
def lookupField : List (Str × Json) → Str → Option Json
  | [], _ => none
  | (k, v) :: rest, key => if k = key then some v else lookupField rest key

/-- Python's `value.get(key, default)`: raises `AttributeError` (modelled
as `Except.error`) unless the receiver is a dict. -/
def pyGet (v : Json) (key : Str) (dflt : Json) : Except Unit Json :=
  match v with
  | Json.obj fs =>
    match lookupField fs key with
    | some x => Except.ok x
    | none => Except.ok dflt
  | _ => Except.error ()

/-- Python `for x in v`: lists yield elements, strings yield their
characters, dicts yield their keys; other values raise `TypeError`. -/
def pyElems (v : Json) : Except Unit (List Json) :=
  match v with
  | Json.arr xs => Except.ok xs
  | Json.str s => Except.ok (s.map (fun c => Json.str [c]))
  | Json.obj fs => Except.ok (fs.map (fun kv => Json.str kv.fst))
  | _ => Except.error ()

/-- Python truthiness of a JSON value. -/
def pyTruthy (v : Json) : Bool :=
  match v with
  | Json.null => false
  | Json.bool b => b
  | Json.num n => n != 0
  | Json.str s => !s.isEmpty
  | Json.arr xs => !xs.isEmpty
  | Json.obj fs => !fs.isEmpty

/-- Decimal rendering of an integer (Python `str(int)`). -/
def intStr (n : Int) : Str :=
  if n < 0 then '-' :: Nat.toDigits 10 n.natAbs else Nat.toDigits 10 n.natAbs

/-- The single-quote character. -/
def squote : Char := Char.ofNat 39

mutual
/-- Python `repr` of a JSON value, used for values nested inside
containers that are interpolated into f-strings (string escaping inside
`repr` is not modelled; no claim exercises it). -/
def pyRepr : Json → Str
  | Json.null => sL "None"
  | Json.bool true => sL "True"
  | Json.bool false => sL "False"
  | Json.num n => intStr n
  | Json.str s => squote :: (s ++ [squote])
  | Json.arr xs => '[' :: (pyReprSepList xs ++ [']'])
  | Json.obj fs => '\x7b' :: (pyReprSepFields fs ++ ['\x7d'])

def pyReprSepList : List Json → Str
  | [] => []
  | [x] => pyRepr x
  | x :: rest => pyRepr x ++ sL ", " ++ pyReprSepList rest

def pyReprSepFields : List (Str × Json) → Str
  | [] => []
  | [(k, v)] => squote :: (k ++ [squote]) ++ sL ": " ++ pyRepr v
  | (k, v) :: rest =>
    squote :: (k ++ [squote]) ++ sL ": " ++ pyRepr v ++ sL ", " ++ pyReprSepFields rest
end

/-- Python `str(value)` as used by f-string interpolation. -/
def pyStr (v : Json) : Str :=
  match v with
  | Json.null => sL "None"
  | Json.bool true => sL "True"
  | Json.bool false => sL "False"
  | Json.num n => intStr n
  | Json.str s => s
  | Json.arr xs => pyRepr (Json.arr xs)
  | Json.obj fs => pyRepr (Json.obj fs)

/-- Outcome of the underlying `model.generate_content(...).text` call:
either a raw response text or an exception (network, auth, quota,
blocked response). -/
inductive GenOutcome where
  | success (text : Str)
  | failure
deriving DecidableEq

/-- `GeminiAPI.generate`: returns the stripped response text on success;
the `except` clause turns any failure into the empty string. -/
def gemini_generate (outcome : GenOutcome) : Str :=
  match outcome with
  | GenOutcome.success t => pyStrip t
  | GenOutcome.failure => []

/-! Prompt templates.  The source duplicates each f-string template
verbatim between a stage and its trace variant; the duplicates are
transcribed separately (suffix `A` for the plain stage, `B`/`C` for the
trace variant) and proved equal by `rfl` in the trace-equivalence
theorem.  F-string interpolation of structured data uses the abstract
`dumps` (Python `json.dumps(·, indent=2)`) and `pyStr` (Python `str`). -/

def extractSeg1A : String := "\nYou are an expert career coach and GenAI learning consultant. Given the following user inputs:\n\nResume:\n"

def extractSeg2A : String := "\n\nInterview Summary:\n"

def extractSeg3A : String := "\n\nPersonal Goals:\n"

def extractSeg4A : String := "\n\nExtract the following as a JSON object:\n- domain: User\x27s professional domain/field\n- skills: \x7b \x27technical\x27: [list with proficiency], \x27soft\x27: [list] \x7d\n- goals: List of specific goals\n- learning_preference: One of [\x27project-based\x27, \x27video-based\x27, \x27reading\x27, \x27mixed\x27]\n- weekly_availability_hours: Integer estimate\n\nOutput ONLY the JSON object. Do not include any explanation.\n"

/-- The prompt built by `UserUnderstanding.extract_user_data`. -/
def extract_prompt (resume_text interview_summary_text goals_text : Str) : Str :=
  extractSeg1A.data ++ resume_text ++ extractSeg2A.data ++ interview_summary_text
    ++ extractSeg3A.data ++ goals_text ++ extractSeg4A.data

def extractSeg1B : String := "\nYou are an expert career coach and GenAI learning consultant. Given the following user inputs:\n\nResume:\n"

def extractSeg2B : String := "\n\nInterview Summary:\n"

def extractSeg3B : String := "\n\nPersonal Goals:\n"

def extractSeg4B : String := "\n\nExtract the following as a JSON object:\n- domain: User\x27s professional domain/field\n- skills: \x7b \x27technical\x27: [list with proficiency], \x27soft\x27: [list] \x7d\n- goals: List of specific goals\n- learning_preference: One of [\x27project-based\x27, \x27video-based\x27, \x27reading\x27, \x27mixed\x27]\n- weekly_availability_hours: Integer estimate\n\nOutput ONLY the JSON object. Do not include any explanation.\n"

/-- The prompt built by `UserUnderstanding.extract_user_data_trace`. -/
def extract_prompt_trace (resume_text interview_summary_text goals_text : Str) : Str :=
  extractSeg1B.data ++ resume_text ++ extractSeg2B.data ++ interview_summary_text
    ++ extractSeg3B.data ++ goals_text ++ extractSeg4B.data

/-- `PersonaClassifier.categories` (instance state, a fixed list). -/
def categories : List Str :=
  [sL "College student",
   sL "Working professional (tech)",
   sL "Working professional (non-tech)",
   sL "Marketing/Sales background",
   sL "Non-tech aiming to enter tech",
   sL "Senior professional (10+ years experience)"]

def classifySeg1A : String := "\nGiven the following user profile data (JSON):\n"

def classifySeg2A : String := "\n\nClassify the user into ONE of these categories:\n- "

def classifySeg3A : String := "\n\nRespond as a JSON object:\n\x7b\n  \"persona\": <category>,\n  \"justification\": <brief justification for your choice>\n\x7d\n"

/-- The prompt built by `PersonaClassifier.classify_persona`. -/
def classify_prompt (dumps : Json → Str) (user_data : Json) : Str :=
  classifySeg1A.data ++ dumps user_data ++ classifySeg2A.data
    ++ List.intercalate (sL ", ") categories ++ classifySeg3A.data

def classifySeg1B : String := "\nGiven the following user profile data (JSON):\n"

def classifySeg2B : String := "\n\nClassify the user into ONE of these categories:\n- "

def classifySeg3B : String := "\n\nRespond as a JSON object:\n\x7b\n  \"persona\": <category>,\n  \"justification\": <brief justification for your choice>\n\x7d\n"

/-- The prompt built by `PersonaClassifier.classify_persona_trace`. -/
def classify_prompt_trace (dumps : Json → Str) (user_data : Json) : Str :=
  classifySeg1B.data ++ dumps user_data ++ classifySeg2B.data
    ++ List.intercalate (sL ", ") categories ++ classifySeg3B.data

def thinkSeg1A : String := "\nYou are an expert GenAI curriculum designer. Given the user\x27s profile and persona below, identify the most relevant GenAI topics/use-cases for them. For each topic, include a brief justification of why it is relevant for this user.\n\nUser Profile:\n"

def thinkSeg2A : String := "\nPersona: "

def thinkSeg3A : String := "\n\nRespond as a JSON array of objects:\n[\n  \x7b\"topic\": <topic>, \"justification\": <why this topic is relevant>\x7d, ...\n]\n"

/-- The Think-step prompt built inside `RoadmapPlanner.plan_roadmap`. -/
def think_prompt (dumps : Json → Str) (user_data persona : Json) : Str :=
  thinkSeg1A.data ++ dumps user_data ++ thinkSeg2A.data ++ pyStr persona
    ++ thinkSeg3A.data

def thinkSeg1B : String := "\nYou are an expert GenAI curriculum designer. Given the user\x27s profile and persona below, identify the most relevant GenAI topics/use-cases for them. For each topic, include a brief justification of why it is relevant for this user.\n\nUser Profile:\n"

def thinkSeg2B : String := "\nPersona: "

def thinkSeg3B : String := "\n\nRespond as a JSON array of objects:\n[\n  \x7b\"topic\": <topic>, \"justification\": <why this topic is relevant>\x7d, ...\n]\n"

/-- The Think-step prompt built in `plan_roadmap_trace` when no
precomputed topics are passed. -/
def think_prompt_traceNone (dumps : Json → Str) (user_data persona : Json) : Str :=
  thinkSeg1B.data ++ dumps user_data ++ thinkSeg2B.data ++ pyStr persona
    ++ thinkSeg3B.data

def thinkSeg1C : String := "\nYou are an expert GenAI curriculum designer. Given the user\x27s profile and persona below, identify the most relevant GenAI topics/use-cases for them. For each topic, include a brief justification of why it is relevant for this user.\n\nUser Profile:\n"

def thinkSeg2C : String := "\nPersona: "

def thinkSeg3C : String := "\n\nRespond as a JSON array of objects:\n[\n  \x7b\"topic\": <topic>, \"justification\": <why this topic is relevant>\x7d, ...\n]\n"

/-- The Think-step prompt built in `plan_roadmap_trace` when
precomputed topics are passed (only recorded for the trace). -/
def think_prompt_traceGiven (dumps : Json → Str) (user_data persona : Json) : Str :=
  thinkSeg1C.data ++ dumps user_data ++ thinkSeg2C.data ++ pyStr persona
    ++ thinkSeg3C.data

def planSeg1A : String := "\nGiven the user\x27s profile and the following topics (with justifications):\n"

def planSeg2A : String := "\n\nPropose a suitable roadmap duration (choose one: 21, 30, or 45 days) and structure the roadmap into levels (e.g., Foundations, Hands-on, Application). Assign topics to levels. Justify your choices based on the user\x27s background, goals, and weekly availability.\n\nRespond as a JSON object:\n\x7b\n  \"duration_days\": <21|30|45>,\n  \"levels\": [\n    \x7b\"level\": <int>, \"title\": <level title>, \"topics\": [<topic>, ...], \"justification\": <why this structure/leveling>\x7d, ...\n  ],\n  \"structure_justification\": <overall justification>\n\x7d\n"

/-- The Plan-step (duration/structure) prompt in `plan_roadmap`. -/
def plan_prompt (dumps : Json → Str) (topics : Json) : Str :=
  planSeg1A.data ++ dumps topics ++ planSeg2A.data

def planSeg1B : String := "\nGiven the user\x27s profile and the following topics (with justifications):\n"

def planSeg2B : String := "\n\nPropose a suitable roadmap duration (choose one: 21, 30, or 45 days) and structure the roadmap into levels (e.g., Foundations, Hands-on, Application). Assign topics to levels. Justify your choices based on the user\x27s background, goals, and weekly availability.\n\nRespond as a JSON object:\n\x7b\n  \"duration_days\": <21|30|45>,\n  \"levels\": [\n    \x7b\"level\": <int>, \"title\": <level title>, \"topics\": [<topic>, ...], \"justification\": <why this structure/leveling>\x7d, ...\n  ],\n  \"structure_justification\": <overall justification>\n\x7d\n"

/-- The Plan-step (duration/structure) prompt in `plan_roadmap_trace`. -/
def plan_prompt_trace (dumps : Json → Str) (topics : Json) : Str :=
  planSeg1B.data ++ dumps topics ++ planSeg2B.data

def actSeg1A : String := "\nGiven the roadmap structure below, the user\x27s learning preference, and their weekly availability, detail the specific learning activities for each topic. Estimate the hours required per activity so that the total fits within the duration and weekly hours. For each activity, provide a justification.\n\nUser Profile:\n"

def actSeg2A : String := "\nPersona: "

def actSeg3A : String := "\nRoadmap Structure:\n"

def actSeg4A : String := "\n\nRespond as a JSON object in this format:\n\x7b\n  \"levels\": [\n    \x7b\n      \"level\": <int>,\n      \"title\": <level title>,\n      \"estimated_hours\": <int>,\n      \"topics\": [\n        \x7b\n          \"topic\": <topic>,\n          \"activity\": <activity description>,\n          \"estimated_hours\": <int>,\n          \"justification\": <why this activity/topic for this user>\n        \x7d, ...\n      ]\n    \x7d, ...\n  ],\n  \"total_estimated_hours\": <int>\n\x7d\n"

/-- The Activities-step prompt in `plan_roadmap`. -/
def activities_prompt (dumps : Json → Str) (user_data persona structureV : Json) : Str :=
  actSeg1A.data ++ dumps user_data ++ actSeg2A.data ++ pyStr persona
    ++ actSeg3A.data ++ dumps structureV ++ actSeg4A.data

def actSeg1B : String := "\nGiven the roadmap structure below, the user\x27s learning preference, and their weekly availability, detail the specific learning activities for each topic. Estimate the hours required per activity so that the total fits within the duration and weekly hours. For each activity, provide a justification.\n\nUser Profile:\n"

def actSeg2B : String := "\nPersona: "

def actSeg3B : String := "\nRoadmap Structure:\n"

def actSeg4B : String := "\n\nRespond as a JSON object in this format:\n\x7b\n  \"levels\": [\n    \x7b\n      \"level\": <int>,\n      \"title\": <level title>,\n      \"estimated_hours\": <int>,\n      \"topics\": [\n        \x7b\n          \"topic\": <topic>,\n          \"activity\": <activity description>,\n          \"estimated_hours\": <int>,\n          \"justification\": <why this activity/topic for this user>\n        \x7d, ...\n      ]\n    \x7d, ...\n  ],\n  \"total_estimated_hours\": <int>\n\x7d\n"

/-- The Activities-step prompt in `plan_roadmap_trace`. -/
def activities_prompt_trace (dumps : Json → Str) (user_data persona structureV : Json) : Str :=
  actSeg1B.data ++ dumps user_data ++ actSeg2B.data ++ pyStr persona
    ++ actSeg3B.data ++ dumps structureV ++ actSeg4B.data

/-- Python `fields.get(key, default)` on a known dict. -/
def dictGetD (fields : List (Str × Json)) (key : Str) (dflt : Json) : Json :=
  match lookupField fields key with
  | some v => v
  | none => dflt

/-- `UserUnderstanding.extract_user_data`: build the prompt, call the
model, normalize, parse; an empty dict on any parse exception. -/
def extract_user_data (loads : Str → Option Json) (gen : Str → Str)
    (resume_text interview_summary_text goals_text : Str) : Json :=
  match loads (clean_json_output
      (gen (extract_prompt resume_text interview_summary_text goals_text))) with
  | some user_data => user_data
  | none => Json.obj []

/-- `UserUnderstanding.extract_user_data_trace`: same parse logic, and
additionally returns the prompt and the raw model output. -/
def extract_user_data_trace (loads : Str → Option Json) (gen : Str → Str)
    (resume_text interview_summary_text goals_text : Str) : Json × Str × Str :=
  let prompt := extract_prompt_trace resume_text interview_summary_text goals_text
  let output := gen prompt
  let user_data :=
    match loads (clean_json_output output) with
    | some u => u
    | none => Json.obj []
  (user_data, prompt, output)

/-- `PersonaClassifier.classify_persona`: returns the pair of the
persona and justification fields of the parsed object, each defaulting
to the empty string.  A successful parse to a non-dict raises
`AttributeError` at `.get`, which the surrounding `except` also maps to
a pair of empty strings. -/
def classify_persona (loads : Str → Option Json) (dumps : Json → Str)
    (gen : Str → Str) (user_data : Json) : Json × Json :=
  match loads (clean_json_output (gen (classify_prompt dumps user_data))) with
  | some (Json.obj fields) =>
    (dictGetD fields (sL "persona") (Json.str []),
     dictGetD fields (sL "justification") (Json.str []))
  | some _ => (Json.str [], Json.str [])
  | none => (Json.str [], Json.str [])

/-- `PersonaClassifier.classify_persona_trace`. -/
def classify_persona_trace (loads : Str → Option Json) (dumps : Json → Str)
    (gen : Str → Str) (user_data : Json) : Json × Json × Str × Str :=
  let prompt := classify_prompt_trace dumps user_data
  let output := gen prompt
  match loads (clean_json_output output) with
  | some (Json.obj fields) =>
    (dictGetD fields (sL "persona") (Json.str []),
     dictGetD fields (sL "justification") (Json.str []),
     prompt, output)
  | some _ => (Json.str [], Json.str [], prompt, output)
  | none => (Json.str [], Json.str [], prompt, output)

/-- Think sub-stage of `RoadmapPlanner.plan_roadmap`: topics, or an
empty list on parse failure. -/
def planThink (loads : Str → Option Json) (dumps : Json → Str)
    (gen : Str → Str) (user_data persona : Json) : Json :=
  match loads (clean_json_output (gen (think_prompt dumps user_data persona))) with
  | some topics => topics
  | none => Json.arr []

/-- Plan (duration/structure) sub-stage: structure, or an empty dict on
parse failure. -/
def planStructure (loads : Str → Option Json) (dumps : Json → Str)
    (gen : Str → Str) (topics : Json) : Json :=
  match loads (clean_json_output (gen (plan_prompt dumps topics))) with
  | some s => s
  | none => Json.obj []

/-- Activities sub-stage: activities, or an empty dict on parse failure. -/
def planActivities (loads : Str → Option Json) (dumps : Json → Str)
    (gen : Str → Str) (user_data persona structureV : Json) : Json :=
  match loads (clean_json_output
      (gen (activities_prompt dumps user_data persona structureV))) with
  | some a => a
  | none => Json.obj []

def titleSeg : String := "Personalized GenAI Roadmap for "

/-- The `roadmap_data` dict literal assembled at the end of both
`plan_roadmap` and `plan_roadmap_trace` (duplicated verbatim in the
source).  The `.get` calls on `user_data`/`structure`/`activities` are
outside any `try` block, so they can raise. -/
def assembleRoadmap (user_data persona structureV activities : Json) :
    Except Unit Json := do
  let domain ← pyGet user_data (sL "domain") (Json.str [])
  let goals ← pyGet user_data (sL "goals") (Json.arr [])
  let wah ← pyGet user_data (sL "weekly_availability_hours") (Json.num 0)
  let dd ← pyGet structureV (sL "duration_days") (Json.num 30)
  let teh ← pyGet activities (sL "total_estimated_hours") (Json.num 0)
  let lvls ← pyGet activities (sL "levels") (Json.arr [])
  Except.ok (Json.obj
    [(sL "user_profile_summary", Json.obj
       [(sL "persona", persona),
        (sL "domain", domain),
        (sL "goals", goals),
        (sL "weekly_availability_hours", wah)]),
     (sL "roadmap", Json.obj
       [(sL "title", Json.str (titleSeg.data ++ pyStr persona)),
        (sL "duration_days", dd),
        (sL "total_estimated_hours", teh),
        (sL "levels", lvls)])])

/-- `RoadmapPlanner.plan_roadmap`: Think → Plan → Activities, then the
final assembly. -/
def plan_roadmap (loads : Str → Option Json) (dumps : Json → Str)
    (gen : Str → Str) (user_data persona : Json) : Except Unit Json :=
  let topics := planThink loads dumps gen user_data persona
  let structureV := planStructure loads dumps gen topics
  let activities := planActivities loads dumps gen user_data persona structureV
  assembleRoadmap user_data persona structureV activities

/-- `RoadmapPlanner.plan_roadmap_trace`: like `plan_roadmap` but also
returns the three prompts and three raw responses (as ordered triples
topics/structure/activities); optionally accepts precomputed topics, in
which case the recorded "response" is their JSON dump (or `"[]"` for a
falsy value). -/
def plan_roadmap_trace (loads : Str → Option Json) (dumps : Json → Str)
    (gen : Str → Str) (user_data persona : Json) (topicsArg : Option Json) :
    Except Unit (Json × (Str × Str × Str) × (Str × Str × Str)) :=
  let tp :=
    match topicsArg with
    | none =>
      let think_promptV := think_prompt_traceNone dumps user_data persona
      let topics_output := gen think_promptV
      let topics :=
        match loads (clean_json_output topics_output) with
        | some t => t
        | none => Json.arr []
      (topics, think_promptV, topics_output)
    | some t =>
      let think_promptV := think_prompt_traceGiven dumps user_data persona
      let topics_output := if pyTruthy t then dumps t else sL "[]"
      (t, think_promptV, topics_output)
  let plan_promptV := plan_prompt_trace dumps tp.fst
  let structure_output := gen plan_promptV
  let structureV :=
    match loads (clean_json_output structure_output) with
    | some s => s
    | none => Json.obj []
  let activities_promptV := activities_prompt_trace dumps user_data persona structureV
  let activities_output := gen activities_promptV
  let activities :=
    match loads (clean_json_output activities_output) with
    | some a => a
    | none => Json.obj []
  (assembleRoadmap user_data persona structureV activities).map
    (fun rd => (rd, (tp.snd.fst, plan_promptV, activities_promptV),
                    (tp.snd.snd, structure_output, activities_output)))

def eqLine : Str := List.replicate 60 '='

def dashLine : Str := List.replicate 60 '-'

/-- A Python `for` loop whose body may raise, collecting the per-item
results (structural recursion, so it evaluates in the kernel). -/
def exceptMapM {α β : Type} (f : α → Except Unit β) : List α → Except Unit (List β)
  | [] => Except.ok []
  | x :: xs => do
    let y ← f x
    let ys ← exceptMapM f xs
    Except.ok (y :: ys)

/-- The four lines `format_table` appends per topic. -/
def topicLines (topic : Json) : Except Unit (List Str) := do
  let t ← pyGet topic (sL "topic") (Json.str [])
  let a ← pyGet topic (sL "activity") (Json.str [])
  let eh ← pyGet topic (sL "estimated_hours") (Json.num 0)
  let j ← pyGet topic (sL "justification") (Json.str [])
  Except.ok
    [sL "- Topic: " ++ pyStr t,
     sL "  Activity: " ++ pyStr a,
     sL "  Est. Hours: " ++ pyStr eh,
     sL "  Justification: " ++ pyStr j ++ sL "\n"]

/-- The lines `format_table` appends per level. -/
def levelLines (level : Json) : Except Unit (List Str) := do
  let lv ← pyGet level (sL "level") (Json.str ['?'])
  let ti ← pyGet level (sL "title") (Json.str [])
  let eh ← pyGet level (sL "estimated_hours") (Json.num 0)
  let tv ← pyGet level (sL "topics") (Json.arr [])
  let ts ← pyElems tv
  let tls ← exceptMapM topicLines ts
  Except.ok
    ([sL "\nLevel " ++ pyStr lv ++ sL ": " ++ pyStr ti ++ sL " (Est. "
        ++ pyStr eh ++ sL " hrs)",
      dashLine] ++ tls.flatten)

/-- `OutputFormatter.format_table`: header block, one section per
level, closing separator, joined with newlines. -/
def format_table (roadmap_data : Json) : Except Unit Str := do
  let roadmap ← pyGet roadmap_data (sL "roadmap") (Json.obj [])
  let ti ← pyGet roadmap (sL "title") (Json.str (sL "GenAI Roadmap"))
  let dd ← pyGet roadmap (sL "duration_days") (Json.num 0)
  let teh ← pyGet roadmap (sL "total_estimated_hours") (Json.num 0)
  let lv ← pyGet roadmap (sL "levels") (Json.arr [])
  let ls ← pyElems lv
  let lls ← exceptMapM levelLines ls
  Except.ok (List.intercalate (sL "\n")
    ([sL "\n" ++ eqLine, pyStr ti,
      sL "Duration: " ++ pyStr dd ++ sL " days | Total Hours: " ++ pyStr teh,
      eqLine] ++ lls.flatten ++ [eqLine ++ sL "\n"]))

/-- Structure traversal of one topic in `generate_pdf`. -/
def pdfTopicVisit (topic : Json) : Except Unit Unit := do
  let _ ← pyGet topic (sL "topic") (Json.str [])
  let _ ← pyGet topic (sL "activity") (Json.str [])
  let _ ← pyGet topic (sL "estimated_hours") (Json.num 0)
  let _ ← pyGet topic (sL "justification") (Json.str [])
  Except.ok ()

/-- Structure traversal of one level in `generate_pdf`. -/
def pdfLevelVisit (level : Json) : Except Unit Unit := do
  let _ ← pyGet level (sL "level") (Json.str ['?'])
  let _ ← pyGet level (sL "title") (Json.str [])
  let _ ← pyGet level (sL "estimated_hours") (Json.num 0)
  let tv ← pyGet level (sL "topics") (Json.arr [])
  let ts ← pyElems tv
  let _ ← exceptMapM pdfTopicVisit ts
  Except.ok ()

/-- `OutputFormatter.generate_pdf`.  The reportlab drawing primitives
(canvas, fonts, text wrapping, page breaks) are external side effects;
the embedding keeps the control flow that determines the return value:
the early `""` return when the backend is missing, and the
`.get`/iteration calls on the record that can raise. -/
def generate_pdf (reportlabAvailable : Bool) (roadmap_data : Json)
    (output_path : Str) : Except Unit Str :=
  if !reportlabAvailable then Except.ok []
  else do
    let roadmap ← pyGet roadmap_data (sL "roadmap") (Json.obj [])
    let _ ← pyGet roadmap (sL "title") (Json.str (sL "GenAI Roadmap"))
    let _ ← pyGet roadmap (sL "duration_days") (Json.num 0)
    let _ ← pyGet roadmap (sL "total_estimated_hours") (Json.num 0)
    let lv ← pyGet roadmap (sL "levels") (Json.arr [])
    let ls ← pyElems lv
    let _ ← exceptMapM pdfLevelVisit ls
    Except.ok output_path

/-- `RoadmapAgent.generate_roadmap`: the full pipeline.  `tmpPath`
abstracts the temporary file name produced when a PDF is requested. -/
def generate_roadmap (loads : Str → Option Json) (dumps : Json → Str)
    (gen : Str → Str) (resume_text interview_summary_text goals_text : Str)
    (genPdf reportlabAvailable : Bool) (tmpPath : Str) :
    Except Unit (Json × Str × Option Str) := do
  let user_data := extract_user_data loads gen resume_text interview_summary_text goals_text
  let persona := (classify_persona loads dumps gen user_data).fst
  let roadmap_data ← plan_roadmap loads dumps gen user_data persona
  let roadmap_table ← format_table roadmap_data
  if genPdf && reportlabAvailable then
    let _ ← generate_pdf reportlabAvailable roadmap_data tmpPath
    Except.ok (roadmap_data, roadmap_table, some tmpPath)
  else
    Except.ok (roadmap_data, roadmap_table, none)

/-- Topic entries must be dicts for the formatter not to raise. -/
def topicWF (t : Json) : Bool :=
  match t with
  | Json.obj _ => true
  | _ => false

/-- Level entries must be dicts whose `topics`, when present, is a list
of dicts. -/
def levelWF (l : Json) : Bool :=
  match l with
  | Json.obj fs =>
    (match lookupField fs (sL "topics") with
     | none => true
     | some (Json.arr ts) => ts.all topicWF
     | some _ => false)
  | _ => false

/-- Roadmap records that are structurally well formed apart from
possibly missing fields: dicts where the formatter expects dicts, lists
of level dicts where it expects lists. -/
def roadmapWF (rd : Json) : Bool :=
  match rd with
  | Json.obj fs =>
    (match lookupField fs (sL "roadmap") with
     | none => true
     | some (Json.obj rfs) =>
       (match lookupField rfs (sL "levels") with
        | none => true
        | some (Json.arr ls) => ls.all levelWF
        | some _ => false)
     | some _ => false)
  | _ => false

/-- Statement-side accessor: read `rd["roadmap"][key]` when present. -/
def roadmapField (rd : Json) (key : Str) : Option Json :=
  match rd with
  | Json.obj fs =>
    (match lookupField fs (sL "roadmap") with
     | some (Json.obj rfs) => lookupField rfs key
     | _ => none)
  | _ => none

/-- Success test for the exception monad. -/
def isOk {α : Type} (e : Except Unit α) : Bool :=
  match e with
  | Except.ok _ => true
  | Except.error _ => false

theorem isOk_exists {α : Type} (e : Except Unit α) (h : isOk e = true) :
    ∃ x, e = Except.ok x := by
  cases e with
  | ok x => exact ⟨x, rfl⟩
  | error e => simp [isOk] at h

theorem ok_bind {α β : Type} (x : α) (f : α → Except Unit β) :
    (Except.ok x >>= f) = f x := rfl

theorem pure_eq_ok {α : Type} (x : α) : (pure x : Except Unit α) = Except.ok x := rfl

theorem pyGet_obj (fs : List (Str × Json)) (k : Str) (d : Json) :
    pyGet (Json.obj fs) k d = Except.ok (dictGetD fs k d) := by
  cases h : lookupField fs k <;> simp [pyGet, dictGetD, h]

theorem topicLines_isOk (t : Json) (h : topicWF t = true) :
    isOk (topicLines t) = true := by
  cases t <;> simp [topicWF] at h
  case obj fs => simp [topicLines, pyGet_obj, ok_bind, isOk]

theorem mapM_topicLines_isOk (ts : List Json) (h : ts.all topicWF = true) :
    isOk (exceptMapM topicLines ts) = true := by
  induction ts with
  | nil => rfl
  | cons t rest ih =>
    simp only [List.all_cons, Bool.and_eq_true] at h
    obtain ⟨o1, h1⟩ := isOk_exists _ (topicLines_isOk t h.1)
    obtain ⟨o2, h2⟩ := isOk_exists _ (ih h.2)
    simp [exceptMapM, h1, h2, ok_bind, isOk]

theorem levelLines_isOk (l : Json) (h : levelWF l = true) :
    isOk (levelLines l) = true := by
  cases l <;> simp [levelWF] at h
  case obj fs =>
    cases htv : lookupField fs (sL "topics") with
    | none =>
      simp [levelLines, pyGet_obj, dictGetD, htv, ok_bind, pyElems, exceptMapM, isOk]
    | some tv =>
      rw [htv] at h
      cases tv with
      | arr ts =>
        have hts : ts.all topicWF = true := h
        obtain ⟨o, ho⟩ := isOk_exists _ (mapM_topicLines_isOk ts hts)
        simp [levelLines, pyGet_obj, dictGetD, htv, ok_bind, pyElems, ho, isOk]
      | null => exact Bool.noConfusion h
      | bool b => exact Bool.noConfusion h
      | num n => exact Bool.noConfusion h
      | str s => exact Bool.noConfusion h
      | obj fs2 => exact Bool.noConfusion h

theorem mapM_levelLines_isOk (ls : List Json) (h : ls.all levelWF = true) :
    isOk (exceptMapM levelLines ls) = true := by
  induction ls with
  | nil => rfl
  | cons l rest ih =>
    simp only [List.all_cons, Bool.and_eq_true] at h
    obtain ⟨o1, h1⟩ := isOk_exists _ (levelLines_isOk l h.1)
    obtain ⟨o2, h2⟩ := isOk_exists _ (ih h.2)
    simp [exceptMapM, h1, h2, ok_bind, isOk]

theorem format_table_isOk (rd : Json) (h : roadmapWF rd = true) :
    isOk (format_table rd) = true := by
  cases rd <;> simp [roadmapWF] at h
  case obj fs =>
    cases hrv : lookupField fs (sL "roadmap") with
    | none =>
      simp [format_table, pyGet_obj, dictGetD, hrv, ok_bind, pyElems,
        exceptMapM, isOk, lookupField]
    | some rv =>
      rw [hrv] at h
      cases rv with
      | obj rfs =>
        have hh : (match lookupField rfs (sL "levels") with
            | none => true
            | some (Json.arr ls) => ls.all levelWF
            | some _ => false) = true := h
        cases hlv : lookupField rfs (sL "levels") with
        | none =>
          simp [format_table, pyGet_obj, dictGetD, hrv, hlv, ok_bind, pyElems,
            exceptMapM, isOk]
        | some lvv =>
          rw [hlv] at hh
          cases lvv with
          | arr ls =>
            have hls : ls.all levelWF = true := hh
            obtain ⟨o, ho⟩ := isOk_exists _ (mapM_levelLines_isOk ls hls)
            simp [format_table, pyGet_obj, dictGetD, hrv, hlv, ok_bind, pyElems,
              ho, isOk]
          | null => exact Bool.noConfusion hh
          | bool b => exact Bool.noConfusion hh
          | num n => exact Bool.noConfusion hh
          | str s => exact Bool.noConfusion hh
          | obj fs2 => exact Bool.noConfusion hh
      | null => exact Bool.noConfusion h
      | bool b => exact Bool.noConfusion h
      | num n => exact Bool.noConfusion h
      | str s => exact Bool.noConfusion h
      | arr xs => exact Bool.noConfusion h

theorem pdfTopicVisit_isOk (t : Json) (h : topicWF t = true) :
    isOk (pdfTopicVisit t) = true := by
  cases t <;> simp [topicWF] at h
  case obj fs => simp [pdfTopicVisit, pyGet_obj, ok_bind, isOk]

theorem mapM_pdfTopicVisit_isOk (ts : List Json) (h : ts.all topicWF = true) :
    isOk (exceptMapM pdfTopicVisit ts) = true := by
  induction ts with
  | nil => rfl
  | cons t rest ih =>
    simp only [List.all_cons, Bool.and_eq_true] at h
    obtain ⟨o1, h1⟩ := isOk_exists _ (pdfTopicVisit_isOk t h.1)
    obtain ⟨o2, h2⟩ := isOk_exists _ (ih h.2)
    simp [exceptMapM, h1, h2, ok_bind, isOk]

theorem pdfLevelVisit_isOk (l : Json) (h : levelWF l = true) :
    isOk (pdfLevelVisit l) = true := by
  cases l <;> simp [levelWF] at h
  case obj fs =>
    cases htv : lookupField fs (sL "topics") with
    | none =>
      simp [pdfLevelVisit, pyGet_obj, dictGetD, htv, ok_bind, pyElems,
        exceptMapM, isOk]
    | some tv =>
      rw [htv] at h
      cases tv with
      | arr ts =>
        have hts : ts.all topicWF = true := h
        obtain ⟨o, ho⟩ := isOk_exists _ (mapM_pdfTopicVisit_isOk ts hts)
        simp [pdfLevelVisit, pyGet_obj, dictGetD, htv, ok_bind, pyElems, ho, isOk]
      | null => exact Bool.noConfusion h
      | bool b => exact Bool.noConfusion h
      | num n => exact Bool.noConfusion h
      | str s => exact Bool.noConfusion h
      | obj fs2 => exact Bool.noConfusion h

theorem mapM_pdfLevelVisit_isOk (ls : List Json) (h : ls.all levelWF = true) :
    isOk (exceptMapM pdfLevelVisit ls) = true := by
  induction ls with
  | nil => rfl
  | cons l rest ih =>
    simp only [List.all_cons, Bool.and_eq_true] at h
    obtain ⟨o1, h1⟩ := isOk_exists _ (pdfLevelVisit_isOk l h.1)
    obtain ⟨o2, h2⟩ := isOk_exists _ (ih h.2)
    simp [exceptMapM, h1, h2, ok_bind, isOk]

theorem generate_pdf_isOk (rd : Json) (path : Str) (h : roadmapWF rd = true) :
    generate_pdf true rd path = Except.ok path := by
  cases rd <;> simp [roadmapWF] at h
  case obj fs =>
    cases hrv : lookupField fs (sL "roadmap") with
    | none =>
      simp [generate_pdf, pyGet_obj, dictGetD, hrv, ok_bind, pyElems, exceptMapM,
        lookupField]
    | some rv =>
      rw [hrv] at h
      cases rv with
      | obj rfs =>
        have hh : (match lookupField rfs (sL "levels") with
            | none => true
            | some (Json.arr ls) => ls.all levelWF
            | some _ => false) = true := h
        cases hlv : lookupField rfs (sL "levels") with
        | none =>
          simp [generate_pdf, pyGet_obj, dictGetD, hrv, hlv, ok_bind, pyElems,
            exceptMapM]
        | some lvv =>
          rw [hlv] at hh
          cases lvv with
          | arr ls =>
            have hls : ls.all levelWF = true := hh
            obtain ⟨o, ho⟩ := isOk_exists _ (mapM_pdfLevelVisit_isOk ls hls)
            simp [generate_pdf, pyGet_obj, dictGetD, hrv, hlv, ok_bind, pyElems, ho]
          | null => exact Bool.noConfusion hh
          | bool b => exact Bool.noConfusion hh
          | num n => exact Bool.noConfusion hh
          | str s => exact Bool.noConfusion hh
          | obj fs2 => exact Bool.noConfusion hh
      | null => exact Bool.noConfusion h
      | bool b => exact Bool.noConfusion h
      | num n => exact Bool.noConfusion h
      | str s => exact Bool.noConfusion h
      | arr xs => exact Bool.noConfusion h

/-- The trace variant builds its prompt from a verbatim duplicate of
the template; the duplicates are equal. -/
theorem extract_prompt_trace_eq : extract_prompt_trace = extract_prompt := rfl

theorem classify_prompt_trace_eq : classify_prompt_trace = classify_prompt := rfl

theorem think_prompt_traceNone_eq : think_prompt_traceNone = think_prompt := rfl

theorem think_prompt_traceGiven_eq : think_prompt_traceGiven = think_prompt := rfl

theorem plan_prompt_trace_eq : plan_prompt_trace = plan_prompt := rfl

theorem activities_prompt_trace_eq : activities_prompt_trace = activities_prompt := rfl

theorem key_ne_ups_roadmap : ¬ (sL "user_profile_summary" = sL "roadmap") := by
  decide

theorem key_ne_title_dur : ¬ (sL "title" = sL "duration_days") := by decide

theorem key_ne_title_lev : ¬ (sL "title" = sL "levels") := by decide

theorem key_ne_dur_lev : ¬ (sL "duration_days" = sL "levels") := by decide

theorem key_ne_teh_lev : ¬ (sL "total_estimated_hours" = sL "levels") := by decide

/-- The roadmap record assembled when every model response is empty. -/
def emptyRunRecord : Json :=
  Json.obj
    [(sL "user_profile_summary", Json.obj
       [(sL "persona", Json.str []),
        (sL "domain", Json.str []),
        (sL "goals", Json.arr []),
        (sL "weekly_availability_hours", Json.num 0)]),
     (sL "roadmap", Json.obj
       [(sL "title", Json.str (sL "Personalized GenAI Roadmap for ")),
        (sL "duration_days", Json.num 30),
        (sL "total_estimated_hours", Json.num 0),
        (sL "levels", Json.arr [])])]

/-- The header-only table rendered from `emptyRunRecord`: title line,
duration/hours line and separators, with no level sections. -/
def emptyRunTable : Str :=
  List.intercalate (sL "\n")
    [sL "\n" ++ eqLine,
     sL "Personalized GenAI Roadmap for ",
     sL "Duration: 30 days | Total Hours: 0",
     eqLine, eqLine ++ sL "\n"]

/-- C1: at every stage (user-data extraction, persona classification,
and the three planner sub-stages), if the model's response does not
parse as JSON after normalization (`loads` is `none` on the normalized
text), the stage returns its defined empty default — empty dict for
extraction and the structure/activities sub-stages, empty list for
topics, a pair of empty strings for persona classification — and, the
stage functions being total, no exception propagates to the caller. -/
theorem claim1_parse_failure_defaults
    (loads : Str → Option Json) (dumps : Json → Str) (gen : Str → Str)
    (r i g : Str) (user_data persona topics structureV : Json) :
    (loads (clean_json_output (gen (extract_prompt r i g))) = none →
      extract_user_data loads gen r i g = Json.obj []) ∧
    (loads (clean_json_output (gen (classify_prompt dumps user_data))) = none →
      classify_persona loads dumps gen user_data = (Json.str [], Json.str [])) ∧
    (loads (clean_json_output (gen (think_prompt dumps user_data persona))) = none →
      planThink loads dumps gen user_data persona = Json.arr []) ∧
    (loads (clean_json_output (gen (plan_prompt dumps topics))) = none →
      planStructure loads dumps gen topics = Json.obj []) ∧
    (loads (clean_json_output
        (gen (activities_prompt dumps user_data persona structureV))) = none →
      planActivities loads dumps gen user_data persona structureV = Json.obj []) := by
  refine ⟨fun h => ?_, fun h => ?_, fun h => ?_, fun h => ?_, fun h => ?_⟩ <;>
    simp [extract_user_data, classify_persona, planThink, planStructure,
      planActivities, h]

/-- Witness for C1 at concrete instances (a parser that always fails and
a model that always answers with the empty string). -/
theorem claim1_parse_failure_defaults_witness :
    extract_user_data (fun _ => none) (fun _ => []) [] [] [] = Json.obj [] ∧
    classify_persona (fun _ => none) (fun _ => []) (fun _ => []) Json.null
      = (Json.str [], Json.str []) ∧
    planThink (fun _ => none) (fun _ => []) (fun _ => []) Json.null Json.null
      = Json.arr [] ∧
    planStructure (fun _ => none) (fun _ => []) (fun _ => []) Json.null
      = Json.obj [] ∧
    planActivities (fun _ => none) (fun _ => []) (fun _ => []) Json.null
      Json.null Json.null = Json.obj [] :=
  have hc := claim1_parse_failure_defaults (fun _ => none) (fun _ => [])
    (fun _ => []) [] [] [] Json.null Json.null Json.null Json.null
  ⟨hc.1 rfl, hc.2.1 rfl, hc.2.2.1 rfl, hc.2.2.2.1 rfl, hc.2.2.2.2 rfl⟩

/-- C3 counterexample: the input consisting of the bare fence marker
(three backticks) is not a wrapped fenced block — it has no trailing
fence line — so the claim's clause for non-wrapped input applies and
predicts the trimmed input (the marker itself) back; the code instead
strips the lone marker and returns the empty string. -/
theorem claim3_counterexample :
    clean_json_output fenceMarker = [] ∧ pyStrip fenceMarker = fenceMarker ∧
      fenceMarker ≠ [] := by
  decide

/-- C3 (amended): for input wrapped as a fenced code block — a leading
fence line with an optional alphabetic language tag and a trailing
fence line — `clean_json_output` returns exactly the inner content with
both fence markers removed and no surrounding whitespace; for input
that, after trimming, does not begin with a fence marker, it returns
the input trimmed of surrounding whitespace. -/
theorem claim3_clean_json_output_amended :
    (∀ tag inner, tag.all Char.isAlpha = true →
      clean_json_output
          (fenceMarker ++ tag ++ '\n' :: (inner ++ '\n' :: fenceMarker))
        = pyStrip inner) ∧
    (∀ s, fenceMarker.isPrefixOf (pyStrip s) = false →
      clean_json_output s = pyStrip s) :=
  ⟨clean_json_output_fenced, clean_json_output_unfenced⟩

/-- Witness for the amended C3 on a tagged fenced block and on a plain
non-fenced input. -/
theorem claim3_clean_json_output_amended_witness :
    clean_json_output
        (fenceMarker ++ sL "json" ++ '\n' :: (sL " 42 " ++ '\n' :: fenceMarker))
      = pyStrip (sL " 42 ") ∧
    clean_json_output (sL "  42  ") = pyStrip (sL "  42  ") :=
  ⟨claim3_clean_json_output_amended.1 (sL "json") (sL " 42 ") (by decide),
   claim3_clean_json_output_amended.2 (sL "  42  ") (by decide)⟩

/-- C4: whenever the normalized model response is well-formed JSON
(`loads` yields `some j`), the stage's parsed result is structurally
equal to that JSON value `j` — round-trip fidelity through
normalization and parsing — for each stage whose result is the parsed
value (user-data extraction and the three planner sub-stages); in
particular `extract_user_data` returns exactly the JSON object the
model produced. -/
theorem claim4_roundtrip
    (loads : Str → Option Json) (dumps : Json → Str) (gen : Str → Str)
    (r i g : Str) (user_data persona topics structureV j : Json) :
    (loads (clean_json_output (gen (extract_prompt r i g))) = some j →
      extract_user_data loads gen r i g = j) ∧
    (loads (clean_json_output (gen (think_prompt dumps user_data persona))) = some j →
      planThink loads dumps gen user_data persona = j) ∧
    (loads (clean_json_output (gen (plan_prompt dumps topics))) = some j →
      planStructure loads dumps gen topics = j) ∧
    (loads (clean_json_output
        (gen (activities_prompt dumps user_data persona structureV))) = some j →
      planActivities loads dumps gen user_data persona structureV = j) := by
  refine ⟨fun h => ?_, fun h => ?_, fun h => ?_, fun h => ?_⟩ <;>
    simp [extract_user_data, planThink, planStructure, planActivities, h]

/-- Witness for C4 with a parser that always recognises `null`. -/
theorem claim4_roundtrip_witness :
    extract_user_data (fun _ => some Json.null) (fun _ => []) [] [] [] = Json.null ∧
    planThink (fun _ => some Json.null) (fun _ => []) (fun _ => [])
      Json.null Json.null = Json.null ∧
    planStructure (fun _ => some Json.null) (fun _ => []) (fun _ => [])
      Json.null = Json.null ∧
    planActivities (fun _ => some Json.null) (fun _ => []) (fun _ => [])
      Json.null Json.null Json.null = Json.null :=
  have hc := claim4_roundtrip (fun _ => some Json.null) (fun _ => [])
    (fun _ => []) [] [] [] Json.null Json.null Json.null Json.null Json.null
  ⟨hc.1 rfl, hc.2.1 rfl, hc.2.2.1 rfl, hc.2.2.2 rfl⟩

/-- C6 counterexample: on a successful call whose response text is
" hi ", `generate` returns the stripped text "hi", not the model's
response text itself. -/
theorem claim6_counterexample :
    gemini_generate (GenOutcome.success (sL " hi ")) = sL "hi" ∧
      sL "hi" ≠ sL " hi " := by
  decide

/-- C6 (amended): `GeminiAPI.generate` returns the model's response
text stripped of surrounding whitespace on success, and the empty
string on any failure (network, auth, quota); it is a total function of
the single call's outcome — it never raises and performs no retry, a
single failure yielding the empty string. -/
theorem claim6_generate_amended (o : GenOutcome) :
    (∀ t, o = GenOutcome.success t → gemini_generate o = pyStrip t) ∧
    (o = GenOutcome.failure → gemini_generate o = []) := by
  cases o with
  | success t =>
    refine ⟨fun t' ht => ?_, fun h => GenOutcome.noConfusion h⟩
    cases ht
    rfl
  | failure =>
    exact ⟨fun t' ht => GenOutcome.noConfusion ht, fun _ => rfl⟩

/-- Witness for the amended C6 on a concrete success and failure. -/
theorem claim6_generate_amended_witness :
    gemini_generate (GenOutcome.success (sL " x ")) = pyStrip (sL " x ") ∧
    gemini_generate GenOutcome.failure = [] :=
  ⟨(claim6_generate_amended (GenOutcome.success (sL " x "))).1 (sL " x ") rfl,
   (claim6_generate_amended GenOutcome.failure).2 rfl⟩

/-- C8: `format_table` is a total pure function on structurally
well-formed roadmap records — dicts in which any or all of the expected
keys of the roadmap, its levels, or their topics may be missing — and
returns a text rendering without raising (missing fields are replaced
by the empty/zero defaults inside the rendering). -/
theorem claim8_format_table_total (rd : Json) (h : roadmapWF rd = true) :
    ∃ text, format_table rd = Except.ok text :=
  isOk_exists _ (format_table_isOk rd h)

/-- Witness for C8 on a record with every field missing at some layer
(empty roadmap dict, a level with only an empty topic dict). -/
theorem claim8_format_table_total_witness :
    ∃ text, format_table
      (Json.obj [(sL "roadmap", Json.obj
        [(sL "levels", Json.arr
          [Json.obj [(sL "topics", Json.arr [Json.obj []])]])])])
      = Except.ok text :=
  claim8_format_table_total
    (Json.obj [(sL "roadmap", Json.obj
      [(sL "levels", Json.arr
        [Json.obj [(sL "topics", Json.arr [Json.obj []])]])])])
    (by decide)

/-- C9: `generate_pdf` returns the empty string — raising no exception —
whenever the rendering backend is unavailable, for every record and
output path; when the backend is available it returns the output path
(shown for structurally well-formed records, whose traversal cannot
raise). -/
theorem claim9_generate_pdf (rd : Json) (path : Str) :
    generate_pdf false rd path = Except.ok [] ∧
    (roadmapWF rd = true → generate_pdf true rd path = Except.ok path) :=
  ⟨rfl, fun h => generate_pdf_isOk rd path h⟩

/-- Witness for C9: backend missing (even on a malformed record), and
backend present on an empty record. -/
theorem claim9_generate_pdf_witness :
    generate_pdf false (Json.num 7) [] = Except.ok [] ∧
    generate_pdf true (Json.obj []) (sL "roadmap.pdf")
      = Except.ok (sL "roadmap.pdf") :=
  ⟨(claim9_generate_pdf (Json.num 7) []).1,
   (claim9_generate_pdf (Json.obj []) (sL "roadmap.pdf")).2 (by decide)⟩

/-- C10: if the classification response parses to a JSON object that
lacks the "persona" (resp. "justification") key, `classify_persona`
returns the empty string for that component — the same value the stage
returns on a parse failure — so a caller cannot distinguish a
successful parse with missing keys from a failed parse. -/
theorem claim10_missing_keys
    (loads : Str → Option Json) (dumps : Json → Str) (gen : Str → Str)
    (user_data : Json) (fields : List (Str × Json)) :
    (loads (clean_json_output (gen (classify_prompt dumps user_data)))
        = some (Json.obj fields) →
      (lookupField fields (sL "persona") = none →
        (classify_persona loads dumps gen user_data).fst = Json.str []) ∧
      (lookupField fields (sL "justification") = none →
        (classify_persona loads dumps gen user_data).snd = Json.str [])) ∧
    (loads (clean_json_output (gen (classify_prompt dumps user_data))) = none →
      classify_persona loads dumps gen user_data = (Json.str [], Json.str [])) := by
  constructor
  · intro h
    constructor
    · intro hk
      simp [classify_persona, h, dictGetD, hk]
    · intro hk
      simp [classify_persona, h, dictGetD, hk]
  · intro h
    simp [classify_persona, h]

/-- Witness for C10: a parse to the empty object (both keys missing)
yields the same pair of empty strings as a parse failure. -/
theorem claim10_missing_keys_witness :
    (classify_persona (fun _ => some (Json.obj [])) (fun _ => []) (fun _ => [])
      Json.null).fst = Json.str [] ∧
    (classify_persona (fun _ => some (Json.obj [])) (fun _ => []) (fun _ => [])
      Json.null).snd = Json.str [] ∧
    classify_persona (fun _ => none) (fun _ => []) (fun _ => []) Json.null
      = (Json.str [], Json.str []) :=
  ⟨((claim10_missing_keys (fun _ => some (Json.obj [])) (fun _ => [])
      (fun _ => []) Json.null []).1 rfl).1 rfl,
   ((claim10_missing_keys (fun _ => some (Json.obj [])) (fun _ => [])
      (fun _ => []) Json.null []).1 rfl).2 rfl,
   (claim10_missing_keys (fun _ => none) (fun _ => []) (fun _ => [])
      Json.null []).2 rfl⟩

/-- C2: if every model call returns the empty string (which the JSON
parser rejects, as `json.loads("")` raises), the pipeline returns a
roadmap record with `duration_days` defaulted to 30,
`total_estimated_hours` 0 and an empty levels list, and `format_table`
on that record still produces the header block — title line,
duration/hours line and separators — with no level sections. -/
theorem claim2_empty_model
    (loads : Str → Option Json) (dumps : Json → Str) (gen : Str → Str)
    (r i g tmp : Str)
    (hgen : ∀ p, gen p = [])
    (hloads : loads [] = none) :
    generate_roadmap loads dumps gen r i g false false tmp =
      Except.ok (emptyRunRecord, emptyRunTable, none) ∧
    roadmapField emptyRunRecord (sL "duration_days") = some (Json.num 30) ∧
    roadmapField emptyRunRecord (sL "total_estimated_hours") = some (Json.num 0) ∧
    roadmapField emptyRunRecord (sL "levels") = some (Json.arr []) := by
  have hclean : clean_json_output [] = [] := rfl
  have hud : extract_user_data loads gen r i g = Json.obj [] := by
    simp [extract_user_data, hgen, hclean, hloads]
  have hcp : classify_persona loads dumps gen (Json.obj [])
      = (Json.str [], Json.str []) := by
    simp [classify_persona, hgen, hclean, hloads]
  have hpt : planThink loads dumps gen (Json.obj []) (Json.str []) = Json.arr [] := by
    simp [planThink, hgen, hclean, hloads]
  have hps : planStructure loads dumps gen (Json.arr []) = Json.obj [] := by
    simp [planStructure, hgen, hclean, hloads]
  have hpa : planActivities loads dumps gen (Json.obj []) (Json.str [])
      (Json.obj []) = Json.obj [] := by
    simp [planActivities, hgen, hclean, hloads]
  have hplan : plan_roadmap loads dumps gen (Json.obj []) (Json.str [])
      = Except.ok emptyRunRecord := by
    simp only [plan_roadmap, hpt, hps, hpa]
    rfl
  have hfmt : format_table emptyRunRecord = Except.ok emptyRunTable := rfl
  refine ⟨?_, rfl, rfl, rfl⟩
  simp [generate_roadmap, hud, hcp, hplan, hfmt, ok_bind]

/-- Witness for C2: a model that always answers with the empty string
and a parser that rejects it. -/
theorem claim2_empty_model_witness :
    generate_roadmap (fun _ => none) (fun _ => []) (fun _ => []) [] [] []
        false false [] =
      Except.ok (emptyRunRecord, emptyRunTable, none) ∧
    roadmapField emptyRunRecord (sL "duration_days") = some (Json.num 30) ∧
    roadmapField emptyRunRecord (sL "total_estimated_hours") = some (Json.num 0) ∧
    roadmapField emptyRunRecord (sL "levels") = some (Json.arr []) :=
  claim2_empty_model (fun _ => none) (fun _ => []) (fun _ => []) [] [] [] []
    (fun _ => rfl) rfl

/-- C5: when every model call succeeds with well-formed JSON of the
requested shape — user data parses to an object, the structure response
to an object whose `duration_days` is one of 21/30/45, the activities
response to an object whose `levels` is a non-empty list of well-formed
level objects — the pipeline returns a roadmap record whose
`duration_days` is that value (hence in \x7b21, 30, 45\x7d) and whose
levels list is the model's non-empty list. -/
theorem claim5_wellformed_pipeline
    (loads : Str → Option Json) (dumps : Json → Str) (gen : Str → Str)
    (r i g tmp : Str) (u s a : List (Str × Json)) (T : Json) (d : Int)
    (ls : List Json)
    (h1 : loads (clean_json_output (gen (extract_prompt r i g))) = some (Json.obj u))
    (h2 : loads (clean_json_output (gen (think_prompt dumps (Json.obj u)
        (classify_persona loads dumps gen (Json.obj u)).fst))) = some T)
    (h3 : loads (clean_json_output (gen (plan_prompt dumps T))) = some (Json.obj s))
    (h4 : lookupField s (sL "duration_days") = some (Json.num d))
    (h5 : d = 21 ∨ d = 30 ∨ d = 45)
    (h6 : loads (clean_json_output (gen (activities_prompt dumps (Json.obj u)
        (classify_persona loads dumps gen (Json.obj u)).fst (Json.obj s))))
        = some (Json.obj a))
    (h7 : lookupField a (sL "levels") = some (Json.arr ls))
    (h8 : ls ≠ [])
    (h9 : ls.all levelWF = true) :
    ∃ rd text, generate_roadmap loads dumps gen r i g false false tmp =
        Except.ok (rd, text, none) ∧
      roadmapField rd (sL "duration_days") = some (Json.num d) ∧
      (d = 21 ∨ d = 30 ∨ d = 45) ∧
      roadmapField rd (sL "levels") = some (Json.arr ls) ∧ ls ≠ [] := by
  have hud : extract_user_data loads gen r i g = Json.obj u := by
    simp [extract_user_data, h1]
  have hpt : planThink loads dumps gen (Json.obj u)
      (classify_persona loads dumps gen (Json.obj u)).fst = T := by
    simp [planThink, h2]
  have hps : planStructure loads dumps gen T = Json.obj s := by
    simp [planStructure, h3]
  have hpa : planActivities loads dumps gen (Json.obj u)
      (classify_persona loads dumps gen (Json.obj u)).fst (Json.obj s)
      = Json.obj a := by
    simp [planActivities, h6]
  have hdd : dictGetD s (sL "duration_days") (Json.num 30) = Json.num d := by
    simp [dictGetD, h4]
  have hlv : dictGetD a (sL "levels") (Json.arr []) = Json.arr ls := by
    simp [dictGetD, h7]
  have hplan : plan_roadmap loads dumps gen (Json.obj u)
      (classify_persona loads dumps gen (Json.obj u)).fst = Except.ok
      (Json.obj
        [(sL "user_profile_summary", Json.obj
           [(sL "persona", (classify_persona loads dumps gen (Json.obj u)).fst),
            (sL "domain", dictGetD u (sL "domain") (Json.str [])),
            (sL "goals", dictGetD u (sL "goals") (Json.arr [])),
            (sL "weekly_availability_hours",
              dictGetD u (sL "weekly_availability_hours") (Json.num 0))]),
         (sL "roadmap", Json.obj
           [(sL "title", Json.str (titleSeg.data
              ++ pyStr (classify_persona loads dumps gen (Json.obj u)).fst)),
            (sL "duration_days", Json.num d),
            (sL "total_estimated_hours",
              dictGetD a (sL "total_estimated_hours") (Json.num 0)),
            (sL "levels", Json.arr ls)])]) := by
    simp [plan_roadmap, hpt, hps, hpa, assembleRoadmap, pyGet_obj, ok_bind,
      hdd, hlv]
  have hwf : roadmapWF
      (Json.obj
        [(sL "user_profile_summary", Json.obj
           [(sL "persona", (classify_persona loads dumps gen (Json.obj u)).fst),
            (sL "domain", dictGetD u (sL "domain") (Json.str [])),
            (sL "goals", dictGetD u (sL "goals") (Json.arr [])),
            (sL "weekly_availability_hours",
              dictGetD u (sL "weekly_availability_hours") (Json.num 0))]),
         (sL "roadmap", Json.obj
           [(sL "title", Json.str (titleSeg.data
              ++ pyStr (classify_persona loads dumps gen (Json.obj u)).fst)),
            (sL "duration_days", Json.num d),
            (sL "total_estimated_hours",
              dictGetD a (sL "total_estimated_hours") (Json.num 0)),
            (sL "levels", Json.arr ls)])]) = true := by
    simp [roadmapWF, lookupField, key_ne_ups_roadmap, key_ne_title_lev,
      key_ne_dur_lev, key_ne_teh_lev, h9]
  obtain ⟨text, htext⟩ := isOk_exists _ (format_table_isOk _ hwf)
  refine ⟨(Json.obj
        [(sL "user_profile_summary", Json.obj
           [(sL "persona", (classify_persona loads dumps gen (Json.obj u)).fst),
            (sL "domain", dictGetD u (sL "domain") (Json.str [])),
            (sL "goals", dictGetD u (sL "goals") (Json.arr [])),
            (sL "weekly_availability_hours",
              dictGetD u (sL "weekly_availability_hours") (Json.num 0))]),
         (sL "roadmap", Json.obj
           [(sL "title", Json.str (titleSeg.data
              ++ pyStr (classify_persona loads dumps gen (Json.obj u)).fst)),
            (sL "duration_days", Json.num d),
            (sL "total_estimated_hours",
              dictGetD a (sL "total_estimated_hours") (Json.num 0)),
            (sL "levels", Json.arr ls)])]),
    text, ?_, ?_, h5, ?_, h8⟩
  · simp [generate_roadmap, hud, hplan, htext, ok_bind]
  · simp [roadmapField, lookupField, key_ne_ups_roadmap, key_ne_title_dur]
  · simp [roadmapField, lookupField, key_ne_ups_roadmap, key_ne_title_lev,
      key_ne_dur_lev, key_ne_teh_lev]

/-- The model oracle used to witness C5: it recognises each stage's
prompt by its first twenty characters and answers with a distinct
marker string. -/
def wfGen : Str → Str := fun p =>
  if p.take 20 = sL "\nYou are an expert c" then sL "E"
  else if p.take 20 = sL "\nYou are an expert G" then sL "T"
  else if p.take 20 = sL "\nGiven the user\x27s pr" then sL "S"
  else if p.take 20 = sL "\nGiven the roadmap s" then sL "A"
  else []

/-- The parser used to witness C5: it maps each marker string to a
value of the requested shape. -/
def wfLoads : Str → Option Json := fun s =>
  if s = sL "E" then some (Json.obj [])
  else if s = sL "T" then some (Json.arr [])
  else if s = sL "S" then some (Json.obj [(sL "duration_days", Json.num 30)])
  else if s = sL "A" then
    some (Json.obj [(sL "levels", Json.arr [Json.obj []])])
  else none

/-- Witness for C5 with the concrete oracle and parser above. -/
theorem claim5_wellformed_pipeline_witness :
    ∃ rd text, generate_roadmap wfLoads (fun _ => []) wfGen [] [] []
        false false [] =
        Except.ok (rd, text, none) ∧
      roadmapField rd (sL "duration_days") = some (Json.num 30) ∧
      ((30 : Int) = 21 ∨ (30 : Int) = 30 ∨ (30 : Int) = 45) ∧
      roadmapField rd (sL "levels") = some (Json.arr [Json.obj []]) ∧
      [Json.obj []] ≠ ([] : List Json) :=
  claim5_wellformed_pipeline wfLoads (fun _ => []) wfGen [] [] [] []
    [] [(sL "duration_days", Json.num 30)]
    [(sL "levels", Json.arr [Json.obj []])] (Json.arr []) 30 [Json.obj []]
    (by rfl) (by rfl) (by rfl) (by rfl) (Or.inr (Or.inl rfl))
    (by rfl) (by rfl) (List.cons_ne_nil _ _) (by rfl)

/-- C7: each trace variant returns the same parsed result as its
non-trace counterpart given the same parser and model responses,
additionally returning the exact prompt sent and the raw model response
(for the planner with no precomputed topics, the three prompts and the
three raw responses, alongside the identical roadmap record or the
identical propagated exception). -/
theorem claim7_trace_equivalence
    (loads : Str → Option Json) (dumps : Json → Str) (gen : Str → Str)
    (r i g : Str) (user_data persona : Json) :
    extract_user_data_trace loads gen r i g =
      (extract_user_data loads gen r i g, extract_prompt r i g,
       gen (extract_prompt r i g)) ∧
    classify_persona_trace loads dumps gen user_data =
      ((classify_persona loads dumps gen user_data).fst,
       (classify_persona loads dumps gen user_data).snd,
       classify_prompt dumps user_data, gen (classify_prompt dumps user_data)) ∧
    plan_roadmap_trace loads dumps gen user_data persona none =
      (plan_roadmap loads dumps gen user_data persona).map
        (fun rd => (rd,
          (think_prompt dumps user_data persona,
           plan_prompt dumps (planThink loads dumps gen user_data persona),
           activities_prompt dumps user_data persona
             (planStructure loads dumps gen
               (planThink loads dumps gen user_data persona))),
          (gen (think_prompt dumps user_data persona),
           gen (plan_prompt dumps (planThink loads dumps gen user_data persona)),
           gen (activities_prompt dumps user_data persona
             (planStructure loads dumps gen
               (planThink loads dumps gen user_data persona)))))) := by
  refine ⟨rfl, ?_, ?_⟩
  · cases h : loads (clean_json_output (gen (classify_prompt dumps user_data))) with
    | none =>
      simp [classify_persona_trace, classify_persona, classify_prompt_trace_eq, h]
    | some j =>
      cases j <;>
        simp [classify_persona_trace, classify_persona, classify_prompt_trace_eq, h]
  · simp only [plan_roadmap_trace, plan_roadmap, planThink, planStructure,
      planActivities, think_prompt_traceNone_eq, plan_prompt_trace_eq,
      activities_prompt_trace_eq]
